import Mathlib

/-!
Shallow embedding of the node-side role reconciliation agent of
`src/automation/role-monitor/bcm_role_monitor.py` (class `BCMRoleMonitor`).
This is the implementation that `deploy_dcgm_exporter.py` installs on every
node (it copies `automation/role-monitor/bcm_role_monitor.py` to
`/usr/local/bin/bcm_role_monitor_dcgm.py`), and the one the design
notes of the spec designate as canonical.

Modelling conventions:
* Timestamps (`datetime.now()`) are natural numbers; `timedelta(seconds=n)`
  is addition.  A stored timestamp models a Python `datetime` *object*
  (which `json.dump` cannot serialize), not a string.
* Network responses, service-manager results and filesystem availability are
  inputs supplied per cycle (`CycleEnv`), since the Python code observes them
  through blocking calls.
* The observable side effects of one reconciliation cycle are recorded as a
  list of `Action`s, in the order the Python code performs them.
* File contents and file operations are modelled explicitly
  (`FContent`, `FileOp`) so that atomicity (temp-then-rename) and
  truncation behaviour can be stated.
-/

namespace RoleMonitor

/-! ### Configuration (`load_config`, lines 59-92) -/

/-- Configuration fields used by the monitor (the subset of the
`default_config` dict of `load_config` that the reconciliation logic reads). -/
structure Config where
  bcmHeadnodes : List String
  bcmPort : Nat
  checkInterval : Nat
  retryInterval : Nat
  maxRetries : Nat
  dcgmExporterPort : Nat
  clusterName : String
deriving DecidableEq

/-- Default configuration values from `load_config` (`default_config`,
lines 61-72). -/
def defaultConfig : Config :=
  { bcmHeadnodes := []
    bcmPort := 8081
    checkInterval := 60
    retryInterval := 600
    maxRetries := 3
    dcgmExporterPort := 9400
    clusterName := "slurm" }

/-- A parsed configuration file: each recognized key may be present or
absent (Python: a JSON dict that may omit keys). -/
structure PartialConfig where
  bcmHeadnodes : Option (List String) := none
  bcmPort : Option Nat := none
  checkInterval : Option Nat := none
  retryInterval : Option Nat := none
  maxRetries : Option Nat := none
  dcgmExporterPort : Option Nat := none
  clusterName : Option String := none
deriving DecidableEq

/-- Merge a loaded config dict with the defaults: `for key, value in
default_config.items(): if key not in config: config[key] = value`
(lines 79-81).  Present keys win, absent keys fall back silently. -/
def mergeConfig (p : PartialConfig) : Config :=
  { bcmHeadnodes := p.bcmHeadnodes.getD defaultConfig.bcmHeadnodes
    bcmPort := p.bcmPort.getD defaultConfig.bcmPort
    checkInterval := p.checkInterval.getD defaultConfig.checkInterval
    retryInterval := p.retryInterval.getD defaultConfig.retryInterval
    maxRetries := p.maxRetries.getD defaultConfig.maxRetries
    dcgmExporterPort := p.dcgmExporterPort.getD defaultConfig.dcgmExporterPort
    clusterName := p.clusterName.getD defaultConfig.clusterName }

/-- State of the configuration file on disk when `load_config` runs. -/
inductive ConfigFile where
  /-- `os.path.exists(self.config_file)` is false. -/
  | missing : ConfigFile
  /-- The file exists but `json.load` raises (invalid JSON). -/
  | malformed : ConfigFile
  /-- The file exists and parses to a JSON object. -/
  | valid : PartialConfig → ConfigFile
deriving DecidableEq

/-- An uncaught Python exception that terminates the process. -/
inductive PyCrash where
  /-- `AttributeError`: `self.logger` is referenced before `setup_logging`
  has run (`__init__` calls `load_config` on line 32 and `setup_logging`
  only on line 44, so `self.logger` does not exist inside `load_config`). -/
  | attributeError : PyCrash
deriving DecidableEq

/-- Embedding of `load_config` (lines 59-92), including its crash paths:

* file exists and parses: merge with defaults and return (no logger use);
* file exists but `json.load` raises: the `except` handler (line 84) calls
  `self.logger.error`, which raises `AttributeError` out of `__init__`;
* file missing: the code writes a default config file and then calls
  `self.logger.info` (line 91), which raises `AttributeError` before the
  `return default_config` on line 92 is reached. -/
def loadConfig : ConfigFile → Except PyCrash Config
  | .valid p => .ok (mergeConfig p)
  | .malformed => .error .attributeError
  | .missing => .error .attributeError

/-! ### Authority query (`check_slurmclient_role`, lines 141-189) -/

/-- One device record of the BCM `/rest/v1/device` response (the fields the
monitor reads: `hostname` and `roles`). -/
structure Device where
  hostname : String
  roles : List String
deriving DecidableEq

/-- What one headnode endpoint returns for the GET request of
`check_slurmclient_role`. -/
inductive EndpointResponse where
  /-- a `requests.exceptions.RequestException` (network error, timeout) or
  any other exception during the request (lines 181-186). -/
  | netError : EndpointResponse
  /-- an HTTP response with `status_code` different from 200 (line 177). -/
  | httpError : Nat → EndpointResponse
  /-- status 200 but `response.json()` raises a JSON decode error
  (lines 174-176). -/
  | badJson : EndpointResponse
  /-- status 200 with a parsed device list (line 160). -/
  | ok : List Device → EndpointResponse
deriving DecidableEq

/-- Embedding of Python `str.lower()`: lowercase every character. -/
def lowerStr (s : String) : String :=
  ⟨s.data.map Char.toLower⟩

/-- Case-insensitive membership test,
`"slurmclient" in [role.lower() for role in roles]` (line 165). -/
def hasSlurmclientRole (roles : List String) : Bool :=
  roles.any (fun r => lowerStr r == "slurmclient")

/-- First device whose `hostname` equals the hostname of this node
(`for device in devices: if device.get("hostname") == self.hostname`,
lines 162-163). -/
def findDevice (host : String) (devices : List Device) : Option Device :=
  devices.find? (fun d => d.hostname == host)

/-- Embedding of `check_slurmclient_role` (lines 141-189).  `headnodes` is
`self.config["bcm_headnodes"]` in its configured order; `resp` gives the
response of each endpoint.  Every failure (exception, non-200 status, malformed
JSON, or a successful response in which this node does not appear) executes
`continue`, moving to the next headnode; a successful response containing
this node returns immediately; exhausting the list returns `None`
(indeterminate, line 189). -/
def checkSlurmclientRole (host : String) (resp : String → EndpointResponse) :
    List String → Option Bool
  | [] => none
  | h :: rest =>
    match resp h with
    | .ok devices =>
      match findDevice host devices with
      | some d => some (hasSlurmclientRole d.roles)
      | none => checkSlurmclientRole host resp rest
    | _ => checkSlurmclientRole host resp rest

/-- An endpoint attempt that does not determine the role: a network error,
a non-200 status, malformed JSON, or a device list without this node. -/
def endpointFails (host : String) (r : EndpointResponse) : Bool :=
  match r with
  | .ok devices => (findDevice host devices).isNone
  | _ => true

/-! ### Retry state (`handle_service_retry`, lines 328-371) -/

/-- Per-service retry record, mirroring the dict initialised on lines
334-339 with attempts = 0, last_attempt = None, next_attempt = None and
failed_permanently = False.  `lastAttempt` and `nextAttempt` model
Python `datetime` objects when set. -/
structure RetryState where
  attempts : Nat
  lastAttempt : Option Nat
  nextAttempt : Option Nat
  failedPermanently : Bool
deriving DecidableEq

/-- The zero retry record (the reset value used throughout the code). -/
def zeroRetry : RetryState :=
  { attempts := 0, lastAttempt := none, nextAttempt := none,
    failedPermanently := false }

/-- The guard `retry_info["next_attempt"] and now < retry_info["next_attempt"]`
(line 351): a next-attempt time is set and has not yet arrived. -/
def notYetTime (rs : RetryState) (now : Nat) : Bool :=
  match rs.nextAttempt with
  | some t => now < t
  | none => false

/-- Observations the monitor makes from its environment during one cycle. -/
structure CycleEnv where
  /-- `datetime.now()` at the top of `handle_service_retry`. -/
  now : Nat
  /-- `get_service_status()`: `systemctl is-active` reports `active`. -/
  serviceRunning : Bool
  /-- `start_service()` succeeds: `systemctl start` returns 0 and the
  verification read-back after the settle delay reports `active`
  (lines 206-231). -/
  startSucceeds : Bool
  /-- `os.path.exists(target_base_dir)` (line 262). -/
  targetsDirExists : Bool
  /-- `os.path.exists(target_file)` (line 303). -/
  targetFileExists : Bool
deriving DecidableEq

/-- Result of `handle_service_retry`: the updated retry record, whether
`start_service` was invoked at all, and the boolean return of the function. -/
structure HSROut where
  state : RetryState
  attempted : Bool
  result : Bool
deriving DecidableEq

/-- Embedding of `handle_service_retry` (lines 328-371).  `rs` is the entry
of `self.retry_state` for the service (`none` when absent, in which case
lines 333-339 initialise it to the zero record). -/
def handleServiceRetry (cfg : Config) (env : CycleEnv) (rs : Option RetryState) :
    HSROut :=
  let ri := rs.getD zeroRetry
  if ri.failedPermanently then
    -- lines 344-348: do not retry until the service is seen running again
    if env.serviceRunning then
      { state := zeroRetry, attempted := false, result := false }
    else
      { state := ri, attempted := false, result := false }
  else if notYetTime ri env.now then
    -- lines 351-352: not time yet
    { state := ri, attempted := false, result := false }
  else if env.startSucceeds then
    -- lines 355-358: success resets the retry record
    { state := zeroRetry, attempted := true, result := true }
  else
    -- lines 360-371: failure updates attempts / last_attempt and either
    -- sets next_attempt or marks the service permanently failed
    let attempts := ri.attempts + 1
    if cfg.maxRetries ≤ attempts then
      { state :=
          { ri with
            attempts := attempts
            lastAttempt := some env.now
            failedPermanently := true }
        attempted := true
        result := false }
    else
      { state :=
          { ri with
            attempts := attempts
            lastAttempt := some env.now
            nextAttempt := some (env.now + cfg.retryInterval) }
        attempted := true
        result := false }

/-! ### One reconciliation cycle (`manage_service`,
`manage_prometheus_targets`, `monitor_loop`) -/

/-- Observable side effects of one cycle, in program order. -/
inductive Action where
  /-- the "Role change detected" log line (line 418). -/
  | logTransition : Bool → Action
  /-- `start_service()` was invoked (a `systemctl start`). -/
  | startAttempt : Action
  /-- `stop_service()` was invoked (a `systemctl stop`). -/
  | stopService : Action
  /-- `_create_prometheus_target` was invoked (target file publish). -/
  | publishTarget : Action
  /-- `os.remove` of the target file (target retract). -/
  | retractTarget : Action
  /-- `save_state` was invoked (persisted AgentState write). -/
  | saveState : Action
deriving DecidableEq

/-- Result of `manage_service`: the updated retry-state entry and the
service-manager actions taken. -/
structure MSOut where
  retry : Option RetryState
  actions : List Action
deriving DecidableEq

/-- Embedding of `manage_service` (lines 373-391).  The retry entry is reset
only when present (`if self.service in self.retry_state`). -/
def manageService (cfg : Config) (env : CycleEnv) (shouldRun : Bool)
    (rs : Option RetryState) : MSOut :=
  if shouldRun then
    if !env.serviceRunning then
      let o := handleServiceRetry cfg env rs
      { retry := some o.state,
        actions := if o.attempted then [Action.startAttempt] else [] }
    else
      { retry := rs.map (fun _ => zeroRetry), actions := [] }
  else
    { retry := rs.map (fun _ => zeroRetry),
      actions := if env.serviceRunning then [Action.stopService] else [] }

/-- Embedding of `manage_prometheus_targets` (lines 254-271): skip when the
targets directory is missing; otherwise publish when the node should be
scraped, and remove the file (if present) when it should not. -/
def managePrometheusTargets (env : CycleEnv) (shouldBeScraped : Bool) :
    List Action :=
  if !env.targetsDirExists then []
  else if shouldBeScraped then [Action.publishTarget]
  else if env.targetFileExists then [Action.retractTarget] else []

/-- The in-memory state `monitor_loop` carries across cycles:
`previous_role_status` (seeded from the persisted state file, `None` when no
prior state exists) and the entry of `self.retry_state` for the service. -/
structure MonitorState where
  previousRoleStatus : Option Bool
  retryState : Option RetryState
deriving DecidableEq

/-- Embedding of one iteration of `monitor_loop` (lines 400-436).  `connOk`
is the result of `test_bcm_connectivity` (line 403); `query` is the result
of `check_slurmclient_role` (line 409, `none` = indeterminate).  When
connectivity fails or the query is indeterminate the loop logs, sleeps and
`continue`s: nothing is started, stopped, published, retracted or saved and
`previous_role_status` keeps its value.  On a determinate result the loop
logs a transition only on change, then always runs `manage_service`,
`manage_prometheus_targets` and `save_state`, and finally sets
`previous_role_status` to the result. -/
def cycleStep (cfg : Config) (s : MonitorState) (connOk : Bool)
    (query : Option Bool) (env : CycleEnv) : MonitorState × List Action :=
  if !connOk then (s, [])
  else
    match query with
    | none => (s, [])
    | some b =>
      let logActs : List Action :=
        if s.previousRoleStatus = some b then [] else [Action.logTransition b]
      let ms := manageService cfg env b s.retryState
      let ta := managePrometheusTargets env b
      ({ previousRoleStatus := some b, retryState := ms.retry },
       logActs ++ ms.actions ++ ta ++ [Action.saveState])

/-- The non-logging actions of a cycle (service, target and state effects). -/
def nonLogActions (l : List Action) : List Action :=
  l.filter (fun a => match a with | Action.logTransition _ => false | _ => true)

/-! ### Persisted state and the filesystem (`save_state` lines 319-326,
`_create_prometheus_target` lines 273-298) -/

/-- The AgentState dict built on lines 427-431 of `monitor_loop`:
the dict with keys has_slurmclient_role, last_check
(= datetime.now().isoformat()) and retry_state.  `lastCheck` is a string (`isoformat()`),
hence JSON-serializable; the timestamps of the retry record are `datetime`
objects when set. -/
structure AgentState where
  hasRole : Bool
  lastCheck : String
  retryState : Option RetryState
deriving DecidableEq

/-- Whether `json.dump` can serialize the AgentState dict: every value is a
bool, int, string or None except the `datetime` objects stored in
`last_attempt` / `next_attempt`, which raise `TypeError`. -/
def jsonEncodable (s : AgentState) : Bool :=
  match s.retryState with
  | none => true
  | some rs => rs.lastAttempt == none && rs.nextAttempt == none

/-- Abstracted content of a file on disk.  Distinct constructors are
observably distinct byte strings; a torn dump (aborted mid-serialization)
is in particular never equal to any complete JSON document. -/
inductive FContent where
  /-- a file that was truncated by `open(..., "w")` and not yet written. -/
  | empty : FContent
  /-- a complete `json.dump` of an AgentState. -/
  | jsonState : AgentState → FContent
  /-- the torn remainder of a `json.dump` of an AgentState that raised
  `TypeError` part-way through its incremental writes. -/
  | tornState : AgentState → FContent
  /-- a complete `json.dump` of the Prometheus target descriptor for this
  node (lines 279-286): `[{"targets": ["host:port"], "labels": {"job":
  "dcgm-exporter", "cluster": c, "hostname": host}}]`. -/
  | jsonTargets : String → Nat → String → FContent
deriving DecidableEq

/-- A filesystem: path to content (none = file absent). -/
def Fs : Type := String → Option FContent

/-- Primitive file operations the monitor performs. -/
inductive FileOp where
  /-- `open(path, "w")`: truncates (or creates) the file immediately. -/
  | openTrunc : String → FileOp
  /-- a `json.dump` into the open file completes with the given content. -/
  | write : String → FContent → FileOp
  /-- `os.rename(src, dst)`: atomic replace. -/
  | rename : String → String → FileOp
deriving DecidableEq

/-- Update one path of a filesystem. -/
def setPath (fs : Fs) (p : String) (v : Option FContent) : Fs :=
  fun q => if q = p then v else fs q

/-- Effect of one file operation. -/
def applyOp (fs : Fs) : FileOp → Fs
  | .openTrunc p => setPath fs p (some FContent.empty)
  | .write p c => setPath fs p (some c)
  | .rename src dst =>
    fun q => if q = dst then fs src else if q = src then none else fs q

/-- Effect of a sequence of file operations. -/
def applyOps (fs : Fs) (ops : List FileOp) : Fs :=
  ops.foldl applyOp fs

/-- The temporary path used by `_create_prometheus_target`:
`temp_file = f"{target_file}.tmp"` (line 289). -/
def tempPath (targetFile : String) : String :=
  targetFile ++ ".tmp"

/-- File operations of `_create_prometheus_target` (lines 273-298): write
the serialized descriptor to the temp path, then `os.rename` it onto the
final path. -/
def createTargetOps (targetFile : String) (content : FContent) : List FileOp :=
  [FileOp.openTrunc (tempPath targetFile),
   FileOp.write (tempPath targetFile) content,
   FileOp.rename (tempPath targetFile) targetFile]

/-- File operations of `save_state` (lines 319-326): `open(self.state_file,
"w")` truncates the final path in place, then `json.dump` either completes
or raises `TypeError` after partial incremental writes; the exception is
caught and logged (line 325-326), so the function always returns.  There is
no temporary file and no rename. -/
def saveStateOps (statePath : String) (s : AgentState) : List FileOp :=
  [FileOp.openTrunc statePath,
   FileOp.write statePath
     (if jsonEncodable s then FContent.jsonState s else FContent.tornState s)]

/-- Whether `save_state` reported success (no exception logged). -/
def saveStateOk (s : AgentState) : Bool :=
  jsonEncodable s

/-- An operation list contains no rename. -/
def noRenameOps (ops : List FileOp) : Bool :=
  ops.all (fun op => match op with | FileOp.rename _ _ => false | _ => true)

/-- An operation list opens the given (final) path for truncation. -/
def opensForTruncation (ops : List FileOp) (path : String) : Bool :=
  ops.any (fun op => match op with | FileOp.openTrunc p => p == path | _ => false)

/-- The effective retry record of an optional entry (`none` means the entry
has not been created yet, which lines 333-339 initialise to zero). -/
def effRetry (o : Option RetryState) : RetryState :=
  o.getD zeroRetry

/-- The documented retry-state invariant: a permanently-failed record has at
least `max_retries` attempts. -/
def retryInvariant (cfg : Config) (rs : RetryState) : Prop :=
  rs.failedPermanently = true → cfg.maxRetries ≤ rs.attempts

/-- Positional builder for cycle environments (used by concrete instances). -/
def mkEnv (now : Nat) (running startOk dirExists fileExists : Bool) : CycleEnv :=
  { now := now, serviceRunning := running, startSucceeds := startOk,
    targetsDirExists := dirExists, targetFileExists := fileExists }

/-- Positional builder for retry records (used by concrete instances). -/
def mkRetry (attempts : Nat) (la na : Option Nat) (perm : Bool) : RetryState :=
  { attempts := attempts, lastAttempt := la, nextAttempt := na,
    failedPermanently := perm }

/-- Concrete state-file path used by the concrete save-state instances. -/
def statePathEx : String := "/var/lib/bcm-role-monitor-dcgm/node1_state.json"

/-- A previously persisted AgentState (fully serializable: its retry record
holds no timestamps). -/
def exStateOld : AgentState :=
  { hasRole := false, lastCheck := "2025-01-01T00:00:00", retryState := some zeroRetry }

/-- An AgentState recorded after one failed start attempt: the retry record
holds `datetime` timestamps, which `json.dump` cannot serialize. -/
def exStateFailed : AgentState :=
  { hasRole := true, lastCheck := "2025-01-01T00:01:00",
    retryState := some (mkRetry 1 (some 100) (some 700) false) }

/-- A filesystem in which the state file holds the previously persisted
AgentState. -/
def exFs : Fs :=
  fun p => if p = statePathEx then some (FContent.jsonState exStateOld) else none

/-- An authority endpoint whose successful response lists a different node
only (this node is absent from the device list). -/
def c7Resp : String → EndpointResponse :=
  fun _ => EndpointResponse.ok [{ hostname := "node2", roles := ["slurmclient"] }]

/-- Concrete state-file path for the truncation-bug instances. -/
def c10Path : String := "/var/lib/bcm-role-monitor-dcgm/node9_state.json"

/-- A previously persisted, serializable AgentState for the truncation-bug
instances. -/
def c10Old : AgentState :=
  { hasRole := true, lastCheck := "2025-02-02T00:00:00", retryState := some zeroRetry }

/-- An AgentState after three failed attempts (permanently failed, with a
`datetime` in `last_attempt`). -/
def c10Failed : AgentState :=
  { hasRole := true, lastCheck := "2025-02-02T01:00:00",
    retryState := some (mkRetry 3 (some 1300) (some 1250) true) }

/-- A filesystem in which the state file holds `c10Old`. -/
def c10Fs : Fs :=
  fun p => if p = c10Path then some (FContent.jsonState c10Old) else none

/-! ### Helper lemmas -/

/-- The temp path `target_file + ".tmp"` is distinct from the final path. -/
theorem tempPath_ne (tf : String) : tf ≠ tempPath tf := by
  intro h
  have h2 := congrArg String.length h
  simp [tempPath, String.length_append] at h2
  exact (by decide : ¬(".tmp".length = 0)) h2

/-- The non-log filter distributes over list append. -/
theorem nonLog_append (l1 l2 : List Action) :
    nonLogActions (l1 ++ l2) = nonLogActions l1 ++ nonLogActions l2 := by
  simp [nonLogActions, List.filter_append]

/-- The non-log filter keeps a state-save action. -/
theorem nonLog_save : nonLogActions [Action.saveState] = [Action.saveState] := rfl

/-- The non-log filter removes a transition-log action. -/
theorem nonLog_log (b : Bool) : nonLogActions [Action.logTransition b] = [] := rfl

/-- The non-log filter drops a leading transition-log action. -/
theorem nonLog_log_cons (b : Bool) (l : List Action) :
    nonLogActions (Action.logTransition b :: l) = nonLogActions l := rfl

/-- The non-log filter keeps the empty list empty. -/
theorem nonLog_nil : nonLogActions [] = [] := rfl

/-- A start attempt by `handle_service_retry` preserves the permanent-failure
invariant. -/
theorem hsr_preserves_inv (cfg : Config) (env : CycleEnv) (o : Option RetryState)
    (hinv : retryInvariant cfg (effRetry o)) :
    retryInvariant cfg (handleServiceRetry cfg env o).state := by
  simp only [effRetry] at hinv
  simp only [handleServiceRetry]
  generalize o.getD zeroRetry = ri at hinv ⊢
  by_cases hperm : ri.failedPermanently = true
  · by_cases hr : env.serviceRunning = true
    · simp [hperm, hr, retryInvariant, zeroRetry]
    · simpa [hperm, hr] using hinv
  · by_cases htime : notYetTime ri env.now = true
    · simpa [hperm, htime] using hinv
    · by_cases hst : env.startSucceeds = true
      · simp [hperm, htime, hst, retryInvariant, zeroRetry]
      · by_cases hc : cfg.maxRetries ≤ ri.attempts + 1
        · simp [hperm, htime, hst, hc, retryInvariant]
        · simp only [hperm, htime, hst, hc, if_false, retryInvariant]
          intro hcontra
          exact absurd hcontra (by simp [hperm, htime, hst, hc])

/-- The retry-record update of `manage_service` preserves the
permanent-failure invariant. -/
theorem manage_preserves_inv (cfg : Config) (env : CycleEnv) (b : Bool)
    (o : Option RetryState) (hinv : retryInvariant cfg (effRetry o)) :
    retryInvariant cfg (effRetry (manageService cfg env b o).retry) := by
  cases b with
  | false =>
    cases o <;> simp [manageService, effRetry, retryInvariant, zeroRetry]
  | true =>
    cases hr : env.serviceRunning with
    | false =>
      simpa [manageService, hr, effRetry] using hsr_preserves_inv cfg env o hinv
    | true =>
      cases o <;> simp [manageService, hr, effRetry, retryInvariant, zeroRetry]

/-- A list unchanged by the non-log filter contains no transition log. -/
theorem noLog_of_filter_eq {l : List Action} (h : nonLogActions l = l) (b : Bool) :
    Action.logTransition b ∉ l := by
  intro hm
  have := List.filter_eq_self.mp h _ hm
  simp at this

/-- The service-management actions of a cycle contain no transition log. -/
theorem nonLog_manageService (cfg : Config) (env : CycleEnv) (b : Bool)
    (rs : Option RetryState) :
    nonLogActions (manageService cfg env b rs).actions
      = (manageService cfg env b rs).actions := by
  cases b <;> cases hr : env.serviceRunning <;>
    cases ha : (handleServiceRetry cfg env rs).attempted <;>
    simp [manageService, hr, ha, nonLogActions]

/-- The target-management actions of a cycle contain no transition log. -/
theorem nonLog_targets (env : CycleEnv) (b : Bool) :
    nonLogActions (managePrometheusTargets env b)
      = managePrometheusTargets env b := by
  cases b <;> cases hd : env.targetsDirExists <;> cases hf : env.targetFileExists <;>
    simp [managePrometheusTargets, hd, hf, nonLogActions]

/-- A failing endpoint is skipped: the query result over `e :: rest` is the
query result over `rest`. -/
theorem check_skips_failing (host : String) (resp : String → EndpointResponse)
    (e : String) (rest : List String)
    (hf : endpointFails host (resp e) = true) :
    checkSlurmclientRole host resp (e :: rest)
      = checkSlurmclientRole host resp rest := by
  cases hr : resp e with
  | ok devices =>
    have hnone : findDevice host devices = none := by
      simpa [endpointFails, hr, Option.isNone_iff_eq_none] using hf
    simp [checkSlurmclientRole, hr, hnone]
  | netError => simp [checkSlurmclientRole, hr]
  | httpError code => simp [checkSlurmclientRole, hr]
  | badJson => simp [checkSlurmclientRole, hr]

/-- If every endpoint fails, the query result is indeterminate (`None`). -/
theorem check_all_failing (host : String) (resp : String → EndpointResponse)
    (l : List String) (hall : ∀ e ∈ l, endpointFails host (resp e) = true) :
    checkSlurmclientRole host resp l = none := by
  induction l with
  | nil => rfl
  | cons e rest ih =>
    rw [check_skips_failing host resp e rest (hall e (by simp))]
    exact ih (fun x hx => hall x (by simp [hx]))

/-- The first endpoint whose successful response contains this node
determines the result, independently of the endpoints after it. -/
theorem check_first_success (host : String) (resp : String → EndpointResponse)
    (pre : List String) (e : String) (post : List String)
    (ds : List Device) (d : Device)
    (hpre : ∀ x ∈ pre, endpointFails host (resp x) = true)
    (he : resp e = EndpointResponse.ok ds)
    (hd : findDevice host ds = some d) :
    checkSlurmclientRole host resp (pre ++ e :: post)
      = some (hasSlurmclientRole d.roles) := by
  induction pre with
  | nil =>
    simp only [List.nil_append]
    unfold checkSlurmclientRole
    simp [he, hd]
  | cons x rest ih =>
    rw [List.cons_append,
      check_skips_failing host resp x (rest ++ e :: post) (hpre x (by simp))]
    exact ih (fun y hy => hpre y (by simp [hy]))

/-! ### Claim theorems -/

/-- C1: when the authority query is indeterminate (`check_slurmclient_role`
returned `None`), the cycle performs no service start or stop, no target
publish or retract, and no state save, and the remembered previous role
status (and all in-memory state) is unchanged; the `None` is checked with
`is None` and never used as a boolean. -/
theorem c1_indeterminate_frame (cfg : Config) (s : MonitorState) (env : CycleEnv) :
    cycleStep cfg s true none env = (s, []) := rfl

/-- C3: on every determinate cycle, a transition is logged exactly when the
result differs from the remembered previous role status, while the
reconciliation effects (service management, target-file management, state
save) are exactly those of `manage_service`, `manage_prometheus_targets`
and `save_state`, independent of the previous role status; instantiating
the previous status to `some true` and the result to `true` gives the
restart-stability case: no transition log, reconciliation still applied. -/
theorem c3_reconcile_every_cycle (cfg : Config) (env : CycleEnv)
    (rs : Option RetryState) (prev : Option Bool) (b : Bool) :
    (Action.logTransition b ∈
        (cycleStep cfg ⟨prev, rs⟩ true (some b) env).2 ↔ prev ≠ some b)
    ∧ nonLogActions (cycleStep cfg ⟨prev, rs⟩ true (some b) env).2
        = (manageService cfg env b rs).actions
          ++ managePrometheusTargets env b ++ [Action.saveState] := by
  have hms := nonLog_manageService cfg env b rs
  have hta := nonLog_targets env b
  have hnotms := noLog_of_filter_eq hms b
  have hnotta := noLog_of_filter_eq hta b
  constructor
  · by_cases hp : prev = some b <;>
      simp [cycleStep, hp, hnotms, hnotta]
  · by_cases hp : prev = some b <;>
      simp [cycleStep, hp, nonLog_append, nonLog_save, nonLog_log,
        nonLog_log_cons, nonLog_nil, hms, hta]

/-- C4: `_create_prometheus_target` serializes the descriptor, writes it to
the temporary path `target_file + ".tmp"` (a sibling in the same directory),
then atomically renames it onto the final path; after any number of the
operations have been applied, the final path holds either its old content or
the complete new descriptor, never a partial one, and after all operations
it holds the new descriptor. -/
theorem c4_atomic_publish (fs : Fs) (tf : String) (content : FContent) :
    (∀ n : Nat,
      applyOps fs ((createTargetOps tf content).take n) tf = fs tf
      ∨ applyOps fs ((createTargetOps tf content).take n) tf = some content)
    ∧ applyOps fs (createTargetOps tf content) tf = some content
    ∧ createTargetOps tf content
        = [FileOp.openTrunc (tempPath tf), FileOp.write (tempPath tf) content,
           FileOp.rename (tempPath tf) tf] := by
  have hne : tf ≠ tempPath tf := tempPath_ne tf
  refine ⟨?_, ?_, rfl⟩
  · intro n
    match n with
    | 0 => left; rfl
    | 1 => left; simp [createTargetOps, applyOps, applyOp, setPath, hne]
    | 2 => left; simp [createTargetOps, applyOps, applyOp, setPath, hne]
    | (m + 3) =>
      right
      simp [createTargetOps, applyOps, applyOp, setPath, hne]
  · simp [createTargetOps, applyOps, applyOp, setPath, hne]

/-- C9: loading the configuration does not fall back to the default
configuration on failure: with the config file present and well-formed the
merge fills unspecified fields silently, but a malformed file makes the
`except` handler reference `self.logger` before `setup_logging` has run, and
a missing file reaches `self.logger.info` the same way, so both paths raise
an uncaught `AttributeError` out of `__init__` and terminate the process. -/
theorem c9_load_config_crashes :
    loadConfig ConfigFile.malformed = Except.error PyCrash.attributeError
    ∧ loadConfig ConfigFile.missing = Except.error PyCrash.attributeError
    ∧ ∀ p : PartialConfig, loadConfig (ConfigFile.valid p) = Except.ok (mergeConfig p) :=
  ⟨rfl, rfl, fun _ => rfl⟩

/-- C6: `check_slurmclient_role` iterates the configured headnodes in order;
any failing attempt (network error, non-200 status, malformed payload, or a
successful response without this node) moves to the next endpoint; the
first endpoint whose successful response contains this node determines the
result independently of later endpoints; and if every endpoint fails the
result is `None` (indeterminate), not a boolean. -/
theorem c6_query_iteration (host : String) (resp : String → EndpointResponse)
    (e : String) (rest : List String) (l pre post : List String)
    (ds : List Device) (d : Device) :
    (endpointFails host (resp e) = true →
      checkSlurmclientRole host resp (e :: rest)
        = checkSlurmclientRole host resp rest)
    ∧ ((∀ x ∈ l, endpointFails host (resp x) = true) →
      checkSlurmclientRole host resp l = none)
    ∧ ((∀ x ∈ pre, endpointFails host (resp x) = true) →
      resp e = EndpointResponse.ok ds →
      findDevice host ds = some d →
      checkSlurmclientRole host resp (pre ++ e :: post)
        = some (hasSlurmclientRole d.roles)) :=
  ⟨check_skips_failing host resp e rest,
   check_all_failing host resp l,
   fun hpre he hd => check_first_success host resp pre e post ds d hpre he hd⟩

/-- C6 witness: two headnodes, the first unreachable, the second returning a
device list containing this node with role `SlurmClient` (matched
case-insensitively); the result is determined by the second endpoint, and
with both failing the result is `None`. -/
theorem c6_query_iteration_witness :
    checkSlurmclientRole "node1"
      (fun e => if e = "head1" then EndpointResponse.netError
        else EndpointResponse.ok [{ hostname := "node1", roles := ["SlurmClient"] }])
      ["head1", "head2", "head3"] = some true
    ∧ checkSlurmclientRole "node1" (fun _ => EndpointResponse.badJson)
      ["head1", "head2"] = none := by
  constructor
  · have h := (c6_query_iteration "node1"
      (fun e => if e = "head1" then EndpointResponse.netError
        else EndpointResponse.ok [{ hostname := "node1", roles := ["SlurmClient"] }])
      "head2" [] [] ["head1"] ["head3"]
      [{ hostname := "node1", roles := ["SlurmClient"] }]
      { hostname := "node1", roles := ["SlurmClient"] }).2.2
      (by intro x hx; simp at hx; subst hx; decide) (by decide) (by decide)
    simpa using h
  · exact (c6_query_iteration "node1" (fun _ => EndpointResponse.badJson)
      "head1" [] ["head1", "head2"] [] [] [] { hostname := "", roles := [] }).2.1
      (by intro x _; decide)

/-- C2: with `max_retries = 3` and the service desired running, every
retry-eligible start attempt that fails increments `attempts` and sets
`last_attempt = now`; while the new attempt count is below 3 it schedules
`next_attempt = now + retry_interval` without marking permanent failure, and
at 3 attempts it sets `failed_permanently`; once permanently failed, a later
desired-start cycle attempts no start and leaves the record unchanged until
the service is observed active, at which point the record resets to zero. -/
theorem c2_retry_bound (cfg : Config) (env : CycleEnv) (rs : RetryState)
    (hmax : cfg.maxRetries = 3) :
    (rs.failedPermanently = false → notYetTime rs env.now = false →
      env.startSucceeds = false →
      (handleServiceRetry cfg env (some rs)).attempted = true
      ∧ (handleServiceRetry cfg env (some rs)).state.attempts = rs.attempts + 1
      ∧ (handleServiceRetry cfg env (some rs)).state.lastAttempt = some env.now
      ∧ (rs.attempts + 1 < 3 →
          (handleServiceRetry cfg env (some rs)).state.failedPermanently = false
          ∧ (handleServiceRetry cfg env (some rs)).state.nextAttempt
              = some (env.now + cfg.retryInterval))
      ∧ (3 ≤ rs.attempts + 1 →
          (handleServiceRetry cfg env (some rs)).state.failedPermanently = true))
    ∧ (rs.failedPermanently = true →
        (handleServiceRetry cfg env (some rs)).attempted = false
        ∧ (env.serviceRunning = false →
            (handleServiceRetry cfg env (some rs)).state = rs)
        ∧ (env.serviceRunning = true →
            (handleServiceRetry cfg env (some rs)).state = zeroRetry)) := by
  constructor
  · intro hperm htime hstart
    rcases Nat.lt_or_ge (rs.attempts + 1) 3 with hlt | hge
    · have hc : ¬ (cfg.maxRetries ≤ rs.attempts + 1) := by omega
      simp [handleServiceRetry, hperm, htime, hstart, hc]
      omega
    · have hc : cfg.maxRetries ≤ rs.attempts + 1 := by omega
      simp [handleServiceRetry, hperm, htime, hstart, hc]
      omega
  · intro hperm
    cases hr : env.serviceRunning <;>
      simp [handleServiceRetry, hperm, hr]

/-- C2 witness: with the default configuration (`max_retries = 3`), a third
consecutive failure at `attempts = 2` marks the service permanently failed,
and a permanently-failed record is left alone while the service stays down
and resets to zero once the service is seen running. -/
theorem c2_retry_bound_witness :
    ((handleServiceRetry defaultConfig
        { now := 1300, serviceRunning := false, startSucceeds := false,
          targetsDirExists := true, targetFileExists := false }
        (some { attempts := 2, lastAttempt := some 650,
                nextAttempt := some 1250, failedPermanently := false })).state.failedPermanently
        = true)
    ∧ ((handleServiceRetry defaultConfig
        { now := 1400, serviceRunning := false, startSucceeds := false,
          targetsDirExists := true, targetFileExists := false }
        (some { attempts := 3, lastAttempt := some 1300,
                nextAttempt := some 1250, failedPermanently := true })).attempted
        = false)
    ∧ ((handleServiceRetry defaultConfig
        { now := 1500, serviceRunning := true, startSucceeds := false,
          targetsDirExists := true, targetFileExists := false }
        (some { attempts := 3, lastAttempt := some 1300,
                nextAttempt := some 1250, failedPermanently := true })).state
        = zeroRetry) := by
  refine ⟨?_, ?_, ?_⟩
  · exact (((c2_retry_bound defaultConfig
      { now := 1300, serviceRunning := false, startSucceeds := false,
        targetsDirExists := true, targetFileExists := false }
      { attempts := 2, lastAttempt := some 650,
        nextAttempt := some 1250, failedPermanently := false }
      rfl).1 rfl (by decide) rfl).2.2.2.2 (by decide))
  · exact ((c2_retry_bound defaultConfig
      { now := 1400, serviceRunning := false, startSucceeds := false,
        targetsDirExists := true, targetFileExists := false }
      { attempts := 3, lastAttempt := some 1300,
        nextAttempt := some 1250, failedPermanently := true }
      rfl).2 rfl).1
  · exact (((c2_retry_bound defaultConfig
      { now := 1500, serviceRunning := true, startSucceeds := false,
        targetsDirExists := true, targetFileExists := false }
      { attempts := 3, lastAttempt := some 1300,
        nextAttempt := some 1250, failedPermanently := true }
      rfl).2 rfl).2.2 rfl)

/-- C8: the retry-state invariants hold through every operation: both
`manage_service` and a full `monitor_loop` cycle preserve
`failed_permanently → attempts ≥ max_retries`; no start attempt occurs
while `next_attempt` is set and in the future; and the record resets to the
zero value when the service is observed running (in `manage_service`, in
the permanent-failure recovery of `handle_service_retry`, and on a verified
successful start) or when the desired state is "should not run". -/
theorem c8_retry_invariants (cfg : Config) (env : CycleEnv) (s : MonitorState)
    (connOk : Bool) (q : Option Bool) (rs : RetryState) (b : Bool)
    (o : Option RetryState) :
    (retryInvariant cfg (effRetry o) →
      retryInvariant cfg (effRetry (manageService cfg env b o).retry))
    ∧ (retryInvariant cfg (effRetry s.retryState) →
      retryInvariant cfg (effRetry (cycleStep cfg s connOk q env).1.retryState))
    ∧ (notYetTime rs env.now = true →
      Action.startAttempt ∉ (manageService cfg env true (some rs)).actions)
    ∧ (env.serviceRunning = true →
      (manageService cfg env true (some rs)).retry = some zeroRetry)
    ∧ (rs.failedPermanently = true → env.serviceRunning = true →
      (handleServiceRetry cfg env (some rs)).state = zeroRetry)
    ∧ (rs.failedPermanently = false → notYetTime rs env.now = false →
      env.startSucceeds = true →
      (handleServiceRetry cfg env (some rs)).state = zeroRetry)
    ∧ (manageService cfg env false (some rs)).retry = some zeroRetry := by
  refine ⟨manage_preserves_inv cfg env b o, ?_, ?_, ?_, ?_, ?_, ?_⟩
  · intro hinv
    cases hc : connOk
    · simpa [cycleStep] using hinv
    · cases q with
      | none => simpa [cycleStep] using hinv
      | some b' =>
        simpa [cycleStep] using manage_preserves_inv cfg env b' s.retryState hinv
  · intro htime
    cases hperm : rs.failedPermanently <;> cases hr : env.serviceRunning <;>
      simp [manageService, handleServiceRetry, hr, hperm, htime]
  · intro hr
    simp [manageService, hr]
  · intro hperm hr
    simp [handleServiceRetry, hperm, hr]
  · intro hperm htime hst
    simp [handleServiceRetry, hperm, htime, hst]
  · cases hr : env.serviceRunning <;> simp [manageService, hr]

/-- C8 witness: concrete checks of the invariant clauses: a permanently
failed record with 3 attempts keeps the invariant through `manage_service`
and through a full cycle; a future `next_attempt` (now 100 < 600) blocks
any start attempt; an active service resets the record under both desired
states; a recovered permanently-failed record and a verified successful
start both reset to zero. -/
theorem c8_retry_invariants_witness :
    retryInvariant defaultConfig (effRetry (manageService defaultConfig
      (mkEnv 100 false false true false) true
      (some (mkRetry 3 (some 50) none true))).retry)
    ∧ retryInvariant defaultConfig (effRetry (cycleStep defaultConfig
      (MonitorState.mk (some false) (some (mkRetry 3 (some 50) none true)))
      true (some true) (mkEnv 100 false false true false)).1.retryState)
    ∧ Action.startAttempt ∉ (manageService defaultConfig
      (mkEnv 100 false false true false) true
      (some (mkRetry 1 (some 90) (some 600) false))).actions
    ∧ (manageService defaultConfig (mkEnv 100 true false true false) true
      (some (mkRetry 2 (some 90) (some 600) false))).retry = some zeroRetry
    ∧ (handleServiceRetry defaultConfig (mkEnv 100 true false true false)
      (some (mkRetry 3 (some 50) none true))).state = zeroRetry
    ∧ (handleServiceRetry defaultConfig (mkEnv 700 false true true false)
      (some (mkRetry 1 (some 90) (some 600) false))).state = zeroRetry
    ∧ (manageService defaultConfig (mkEnv 100 true false true false) false
      (some (mkRetry 2 (some 90) (some 600) false))).retry = some zeroRetry := by
  refine ⟨?_, ?_, ?_, ?_, ?_, ?_, ?_⟩
  · exact (c8_retry_invariants defaultConfig (mkEnv 100 false false true false)
      (MonitorState.mk none none) true none zeroRetry true
      (some (mkRetry 3 (some 50) none true))).1 (by intro _; decide)
  · exact (c8_retry_invariants defaultConfig (mkEnv 100 false false true false)
      (MonitorState.mk (some false) (some (mkRetry 3 (some 50) none true)))
      true (some true) zeroRetry true none).2.1 (by intro _; decide)
  · exact (c8_retry_invariants defaultConfig (mkEnv 100 false false true false)
      (MonitorState.mk none none) true none
      (mkRetry 1 (some 90) (some 600) false) true none).2.2.1 (by decide)
  · exact (c8_retry_invariants defaultConfig (mkEnv 100 true false true false)
      (MonitorState.mk none none) true none
      (mkRetry 2 (some 90) (some 600) false) true none).2.2.2.1 rfl
  · exact (c8_retry_invariants defaultConfig (mkEnv 100 true false true false)
      (MonitorState.mk none none) true none
      (mkRetry 3 (some 50) none true) true none).2.2.2.2.1 rfl rfl
  · exact (c8_retry_invariants defaultConfig (mkEnv 700 false true true false)
      (MonitorState.mk none none) true none
      (mkRetry 1 (some 90) (some 600) false) true none).2.2.2.2.2.1 rfl
      (by decide) rfl
  · exact (c8_retry_invariants defaultConfig (mkEnv 100 true false true false)
      (MonitorState.mk none none) true none
      (mkRetry 2 (some 90) (some 600) false) true none).2.2.2.2.2.2

/-- C5 counterexample: `save_state` is not an atomic temp-then-rename write.
For a state recorded after one failed start attempt, the operations of
`save_state` contain no rename and open the final state path directly for
truncation, and the previously persisted content is not preserved: the file
ends up holding a torn dump, not the last successfully persisted state. -/
theorem c5_counterexample :
    noRenameOps (saveStateOps statePathEx exStateFailed) = true
    ∧ opensForTruncation (saveStateOps statePathEx exStateFailed) statePathEx = true
    ∧ applyOps exFs (saveStateOps statePathEx exStateFailed) statePathEx
        = some (FContent.tornState exStateFailed)
    ∧ applyOps exFs (saveStateOps statePathEx exStateFailed) statePathEx
        ≠ exFs statePathEx := by decide

/-- C5 (amended): `save_state` writes the state file in place: it truncates
the final path with `open(path, "w")` and dumps JSON directly into it, with
no temporary file and no rename; a failure is caught and logged (never
fatal), but when serialization fails the on-disk file is left as a torn
dump rather than the last successfully persisted state. -/
theorem c5_save_state_amended (path : String) (s : AgentState) (fs : Fs) :
    noRenameOps (saveStateOps path s) = true
    ∧ opensForTruncation (saveStateOps path s) path = true
    ∧ applyOps fs (saveStateOps path s) path
        = some (if jsonEncodable s then FContent.jsonState s
                else FContent.tornState s)
    ∧ (jsonEncodable s = false → ∀ s₀ : AgentState,
        fs path = some (FContent.jsonState s₀) →
        applyOps fs (saveStateOps path s) path ≠ fs path) := by
  have h3 : applyOps fs (saveStateOps path s) path
      = some (if jsonEncodable s then FContent.jsonState s
              else FContent.tornState s) := by
    simp [applyOps, saveStateOps, applyOp, setPath]
  refine ⟨rfl, ?_, h3, ?_⟩
  · simp [opensForTruncation, saveStateOps]
  · intro hen s₀ hfs heq
    rw [h3, hfs] at heq
    simp [hen] at heq

/-- C5 witness: at the concrete failed state, the amended theorem yields
that the save leaves the file different from the last persisted content. -/
theorem c5_save_state_amended_witness :
    applyOps exFs (saveStateOps statePathEx exStateFailed) statePathEx
      ≠ exFs statePathEx :=
  (c5_save_state_amended statePathEx exStateFailed exFs).2.2.2 (by decide)
    exStateOld (by decide)

/-- C7 counterexample: with a single endpoint whose successful response does
not list this node, `check_slurmclient_role` returns `None` (indeterminate),
not `False` (lacks-role), and the cycle performs no stop and no retract even
though the service is running and the target file exists — refuting that
node absence is treated as an authoritative negative. -/
theorem c7_counterexample :
    checkSlurmclientRole "node1" c7Resp ["head1"] = none
    ∧ checkSlurmclientRole "node1" c7Resp ["head1"] ≠ some false
    ∧ cycleStep defaultConfig (MonitorState.mk (some true) (some zeroRetry))
        true (checkSlurmclientRole "node1" c7Resp ["head1"])
        (mkEnv 0 true false true true)
      = (MonitorState.mk (some true) (some zeroRetry), []) := by decide

/-- C7 (amended): a successful response in which this node is absent moves
the query to the next endpoint (so that an all-endpoints-absent query ends
indeterminate and suppresses action), while an explicit lacks-role result
(`False`) does drive an active stop when the service is running and a
target retract when the targets directory and file exist. -/
theorem c7_lacks_role_amended (host : String) (resp : String → EndpointResponse)
    (e : String) (rest : List String) (ds : List Device) (cfg : Config)
    (s : MonitorState) (env : CycleEnv)
    (he : resp e = EndpointResponse.ok ds)
    (hd : findDevice host ds = none) :
    checkSlurmclientRole host resp (e :: rest)
      = checkSlurmclientRole host resp rest
    ∧ (env.serviceRunning = true →
        Action.stopService ∈ (cycleStep cfg s true (some false) env).2)
    ∧ (env.targetsDirExists = true → env.targetFileExists = true →
        Action.retractTarget ∈ (cycleStep cfg s true (some false) env).2) := by
  refine ⟨?_, ?_, ?_⟩
  · exact check_skips_failing host resp e rest (by simp [endpointFails, he, hd])
  · intro hr
    simp [cycleStep, manageService, managePrometheusTargets, hr]
  · intro htd htf
    cases hr : env.serviceRunning <;>
      simp [cycleStep, manageService, managePrometheusTargets, hr, htd, htf]

/-- C7 witness: at the concrete inputs, node absence skips to the next
endpoint, and a lacks-role cycle with the service running and the target
file present emits both the stop and the retract. -/
theorem c7_lacks_role_amended_witness :
    checkSlurmclientRole "node1" c7Resp ["head1"]
      = checkSlurmclientRole "node1" c7Resp []
    ∧ Action.stopService ∈ (cycleStep defaultConfig
        (MonitorState.mk (some true) none) true (some false)
        (mkEnv 0 true false true true)).2
    ∧ Action.retractTarget ∈ (cycleStep defaultConfig
        (MonitorState.mk (some true) none) true (some false)
        (mkEnv 0 true false true true)).2 := by
  obtain ⟨h1, h2, h3⟩ := c7_lacks_role_amended "node1" c7Resp "head1" []
    [{ hostname := "node2", roles := ["slurmclient"] }] defaultConfig
    (MonitorState.mk (some true) none) (mkEnv 0 true false true true)
    rfl (by decide)
  exact ⟨h1, h2 rfl, h3 rfl rfl⟩

/-- C10: for every AgentState whose retry record has a set `last_attempt` or
`next_attempt` (as happens after every failed eligible start attempt, which
stores `datetime.now()`), the state is not JSON-serializable, `save_state`
reports failure (the `TypeError` is caught and only logged), the state file
— already truncated by `open(path, "w")` before serialization ran — is left
holding a torn dump, and in particular differs from any previously
persisted complete state. -/
theorem c10_failed_save_destroys_state (path : String) (fs : Fs)
    (s : AgentState) (rs : RetryState) (cfg : Config) (env : CycleEnv)
    (o : Option RetryState)
    (h1 : s.retryState = some rs)
    (h2 : rs.lastAttempt ≠ none ∨ rs.nextAttempt ≠ none) :
    jsonEncodable s = false
    ∧ saveStateOk s = false
    ∧ applyOps fs (saveStateOps path s) path = some (FContent.tornState s)
    ∧ (∀ s₀ : AgentState, fs path = some (FContent.jsonState s₀) →
        applyOps fs (saveStateOps path s) path ≠ fs path)
    ∧ ((handleServiceRetry cfg env o).attempted = true →
        (handleServiceRetry cfg env o).result = false →
        (handleServiceRetry cfg env o).state.lastAttempt = some env.now) := by
  have hen : jsonEncodable s = false := by
    simp only [jsonEncodable, h1]
    rcases h2 with h | h <;>
      · simp only [Bool.and_eq_false_iff]
        first
          | exact Or.inl (by simpa using h)
          | exact Or.inr (by simpa using h)
  have h3 : applyOps fs (saveStateOps path s) path
      = some (FContent.tornState s) := by
    simp [applyOps, saveStateOps, applyOp, setPath, hen]
  refine ⟨hen, hen, h3, ?_, ?_⟩
  · intro s₀ hfs heq
    rw [h3, hfs] at heq
    simp at heq
  · intro ha hres
    by_cases hperm : (o.getD zeroRetry).failedPermanently = true
    · cases hr : env.serviceRunning <;>
        simp [handleServiceRetry, hperm, hr] at ha
    · by_cases htime : notYetTime (o.getD zeroRetry) env.now = true
      · simp [handleServiceRetry, hperm, htime] at ha
      · by_cases hst : env.startSucceeds = true
        · simp [handleServiceRetry, hperm, htime, hst] at hres
        · by_cases hc : cfg.maxRetries ≤ (o.getD zeroRetry).attempts + 1 <;>
            simp [handleServiceRetry, hperm, htime, hst, hc]

/-- C10 witness: the concrete permanently-failed state is unserializable,
its save leaves the file different from the previously persisted content,
and a concrete failed attempt stores the current time in `last_attempt`. -/
theorem c10_failed_save_destroys_state_witness :
    jsonEncodable c10Failed = false
    ∧ applyOps c10Fs (saveStateOps c10Path c10Failed) c10Path ≠ c10Fs c10Path
    ∧ (handleServiceRetry defaultConfig (mkEnv 5 false false true false)
        (some zeroRetry)).state.lastAttempt = some 5 := by
  obtain ⟨h1, _, _, h4, h5⟩ := c10_failed_save_destroys_state c10Path c10Fs
    c10Failed (mkRetry 3 (some 1300) (some 1250) true) defaultConfig
    (mkEnv 5 false false true false) (some zeroRetry) rfl
    (Or.inl (by decide))
  exact ⟨h1, h4 c10Old (by decide), h5 rfl rfl⟩

end RoleMonitor
